import Mathlib

/-!
Verification of the opportunity-scoring and monitoring pipeline of the
solana-yields-fun plugin.  JavaScript numbers are modelled as rationals
(`ℚ`); all formulas below are transcribed from the TypeScript source.
Network calls are modelled by passing their (possibly failing) results as
explicit `Except`/`Option` parameters.
-/

namespace YieldsFun

/-! ## TokenPairTrustManager (trust scoring over a token pair) -/

/-- Security metrics of a token, as returned by the Birdeye security
endpoint (`TokenSecurityMetrics` in the source). -/
structure TokenSecurityMetrics where
  ownerBalance : String
  creatorBalance : String
  ownerPercentage : ℚ
  creatorPercentage : ℚ
  top10HolderBalance : String
  top10HolderPercent : ℚ
  isHoneypot : Bool
  hasRenounced : Bool
  hasBlacklist : Bool
  hasMintFunction : Bool
  deriving Repr, DecidableEq

/-- Trading metrics of a token (`TokenTradingMetrics` in the source). -/
structure TokenTradingMetrics where
  price : ℚ
  priceChange24h : ℚ
  volume24h : ℚ
  volumeChange24h : ℚ
  mcap : ℚ
  uniqueHolders : ℚ
  buyTaxBps : ℚ
  sellTaxBps : ℚ
  liquidityUSD : ℚ
  liquiditySOL : ℚ
  deriving Repr, DecidableEq

/-- Computed trust sub-scores (`TokenPairTrustMetrics` in the source).
The `lastUpdated : Date` field is modelled as an integer timestamp. -/
structure TokenPairTrustMetrics where
  volumeScore : ℚ
  liquidityScore : ℚ
  volatilityScore : ℚ
  transactionScore : ℚ
  securityScore : ℚ
  overallTrustScore : ℚ
  lastUpdated : ℤ
  deriving Repr, DecidableEq

/-- Risk level labels used by the trust manager recommendations. -/
inductive RiskLevel where
  | low
  | medium
  | high
  | extreme
  deriving Repr, DecidableEq

/-- Recommendation block of a `TokenPairTrustState`. -/
structure TrustRecommendations where
  shouldProvide : Bool
  riskLevel : RiskLevel
  maxExposure : ℚ
  warning : List String
  deriving Repr, DecidableEq

/-- Aggregate trust state for a token pair (`TokenPairTrustState`). -/
structure TokenPairTrustState where
  baseAddress : String
  quoteAddress : String
  security : TokenSecurityMetrics
  trading : TokenTradingMetrics
  metrics : TokenPairTrustMetrics
  recommendations : TrustRecommendations
  deriving Repr, DecidableEq

namespace TokenPairTrustManager

/-- Security sub-score of `calculateScores`: starts at 100 and deducts
points per security red flag, clamped below at 0. -/
def securityScoreOf (security : TokenSecurityMetrics)
    (trading : TokenTradingMetrics) : ℚ :=
  let s : ℚ := 100
  let s := if security.isHoneypot then s - 100 else s
  let s := if security.hasBlacklist then s - 20 else s
  let s := if security.hasMintFunction then s - 30 else s
  let s := if !security.hasRenounced then s - 10 else s
  let s := if security.top10HolderPercent > 50 then s - 20 else s
  let s := if trading.buyTaxBps > 1000 || trading.sellTaxBps > 1000
    then s - 30 else s
  max 0 s

/-- Transcription of `TokenPairTrustManager.calculateScores`.  The ambient
wall-clock time (`new Date()` in the source) is passed as `now`. -/
def calculateScores (security : TokenSecurityMetrics)
    (trading : TokenTradingMetrics) (now : ℤ) : TokenPairTrustMetrics :=
  let volumeScore := min 100 (trading.volume24h / 50000 * 100)
  let liquidityScore := min 100 (trading.liquidityUSD / 100000 * 100)
  let volatilityScore := max 0 (100 - |trading.priceChange24h| * 2)
  let transactionScore := min 100 (trading.uniqueHolders / 1000 * 100)
  let securityScore := securityScoreOf security trading
  let overallTrustScore :=
    volumeScore * 0.2 +
    liquidityScore * 0.2 +
    volatilityScore * 0.2 +
    transactionScore * 0.2 +
    securityScore * 0.2
  { volumeScore := volumeScore
    liquidityScore := liquidityScore
    volatilityScore := volatilityScore
    transactionScore := transactionScore
    securityScore := securityScore
    overallTrustScore := overallTrustScore
    lastUpdated := now }

/-- Warning strings accumulated by `getTrustState`. -/
def trustWarnings (security : TokenSecurityMetrics)
    (trading : TokenTradingMetrics) : List String :=
  (if security.isHoneypot then ["Token is a potential honeypot"] else []) ++
  (if security.hasBlacklist then ["Token contract has blacklist function"] else []) ++
  (if security.hasMintFunction then ["Token contract has mint function"] else []) ++
  (if security.top10HolderPercent > 50 then
    ["High concentration of tokens in top holders"] else []) ++
  (if trading.buyTaxBps > 1000 || trading.sellTaxBps > 1000 then
    ["High transaction taxes detected"] else []) ++
  (if trading.liquidityUSD < 10000 then
    ["Low liquidity, high slippage risk"] else []) ++
  (if trading.uniqueHolders < 100 then
    ["Low number of unique holders"] else [])

/-- Cache-miss path of `TokenPairTrustManager.getTrustState`: builds the
trust state from freshly computed metrics (the Birdeye/DexScreener fetch
results are passed in as `security` and `trading`). -/
def getTrustState (baseAddress quoteAddress : String)
    (security : TokenSecurityMetrics) (trading : TokenTradingMetrics)
    (now : ℤ) : TokenPairTrustState :=
  let metrics := calculateScores security trading now
  { baseAddress := baseAddress
    quoteAddress := quoteAddress
    security := security
    trading := trading
    metrics := metrics
    recommendations :=
      { shouldProvide := metrics.overallTrustScore ≥ 70
        riskLevel :=
          if metrics.overallTrustScore ≥ 80 then .low
          else if metrics.overallTrustScore ≥ 60 then .medium
          else if metrics.overallTrustScore ≥ 40 then .high
          else .extreme
        maxExposure :=
          min (trading.liquidityUSD * 0.01) (metrics.overallTrustScore * 100)
        warning := trustWarnings security trading } }

/-- Security metrics of a honeypot token with no other red flag. -/
def honeypotSecurity : TokenSecurityMetrics :=
  { ownerBalance := "0", creatorBalance := "0", ownerPercentage := 0,
    creatorPercentage := 0, top10HolderBalance := "0", top10HolderPercent := 0,
    isHoneypot := true, hasRenounced := true, hasBlacklist := false,
    hasMintFunction := false }

/-- Trading metrics saturating the four non-security sub-scores. -/
def strongTrading : TokenTradingMetrics :=
  { price := 1, priceChange24h := 0, volume24h := 50000, volumeChange24h := 0,
    mcap := 0, uniqueHolders := 1000, buyTaxBps := 0, sellTaxBps := 0,
    liquidityUSD := 100000, liquiditySOL := 0 }

end TokenPairTrustManager

/-! ## DexScreenerProvider (best-venue selection) -/

/-- Token descriptor inside a DexScreener pair. -/
structure DexToken where
  address : String
  name : String
  symbol : String
  deriving Repr, DecidableEq

/-- Volume block of a DexScreener pair. -/
structure PairVolume where
  h24 : ℚ
  h6 : ℚ
  h1 : ℚ
  m5 : ℚ
  deriving Repr, DecidableEq

/-- Liquidity block of a DexScreener pair. -/
structure PairLiquidity where
  usd : ℚ
  base : ℚ
  quote : ℚ
  deriving Repr, DecidableEq

/-- DexScreener pair record (`DexScreenerPair`); response fields not read
by any embedded function (txns, price strings, fdv, marketCap) are
omitted. -/
structure DexScreenerPair where
  chainId : String
  dexId : String
  pairAddress : String
  baseToken : DexToken
  quoteToken : DexToken
  volume : PairVolume
  liquidity : PairLiquidity
  deriving Repr, DecidableEq

/-- Result shape of `getBestDexForPair`. -/
structure BestDexResult where
  dexId : String
  score : ℚ
  volumeUsd24h : ℚ
  liquidityUsd : ℚ
  pairAddress : String
  deriving Repr, DecidableEq

namespace DexScreenerProvider

/-- JavaScript `toLowerCase`, modelled over the character list (the
built-in `String.toLower` does not reduce in the kernel). -/
def toLowerCase (s : String) : String := String.mk (s.data.map Char.toLower)

/-- Matching predicate of `getBestDexForPair`: the pair holds the two
requested token addresses in either orientation (case-insensitively). -/
def matchesTokenPair (baseAddress quoteAddress : String)
    (pair : DexScreenerPair) : Bool :=
  (toLowerCase pair.baseToken.address == toLowerCase baseAddress &&
   toLowerCase pair.quoteToken.address == toLowerCase quoteAddress) ||
  (toLowerCase pair.baseToken.address == toLowerCase quoteAddress &&
   toLowerCase pair.quoteToken.address == toLowerCase baseAddress)

/-- Scoring step of `getBestDexForPair`: weighted 24h-volume / USD
liquidity score with a 0.7/0.3 split. -/
def scorePair (pair : DexScreenerPair) : BestDexResult :=
  { dexId := pair.dexId
    score := pair.volume.h24 * 0.7 + pair.liquidity.usd * 0.3
    volumeUsd24h := pair.volume.h24
    liquidityUsd := pair.liquidity.usd
    pairAddress := pair.pairAddress }

/-- Reduction step of `getBestDexForPair`: JavaScript
`reduce((best, current) => current.score > best.score ? current : best)`
with the first scored pair as the initial accumulator. -/
def reduceBest (best : BestDexResult) (rest : List BestDexResult) :
    BestDexResult :=
  rest.foldl (fun best current =>
    if current.score > best.score then current else best) best

/-- Transcription of `DexScreenerProvider.getBestDexForPair`; the pair list
fetched from the DexScreener API is passed in as `pairs`. -/
def getBestDexForPair (baseAddress quoteAddress : String)
    (pairs : List DexScreenerPair) : BestDexResult :=
  let matchingPairs := pairs.filter (matchesTokenPair baseAddress quoteAddress)
  match matchingPairs with
  | [] =>
    { dexId := "none", score := 0, volumeUsd24h := 0, liquidityUsd := 0,
      pairAddress := "" }
  | p :: rest => reduceBest (scorePair p) (rest.map scorePair)

/-- Candidate venue with 24h volume 100k USD and liquidity 50k USD. -/
def examplePairA : DexScreenerPair :=
  { chainId := "solana", dexId := "raydium", pairAddress := "pairA",
    baseToken := { address := "base", name := "Base", symbol := "BASE" },
    quoteToken := { address := "quote", name := "Quote", symbol := "QUOTE" },
    volume := { h24 := 100000, h6 := 0, h1 := 0, m5 := 0 },
    liquidity := { usd := 50000, base := 0, quote := 0 } }

/-- Candidate venue with 24h volume 80k USD and liquidity 90k USD. -/
def examplePairB : DexScreenerPair :=
  { chainId := "solana", dexId := "orca", pairAddress := "pairB",
    baseToken := { address := "base", name := "Base", symbol := "BASE" },
    quoteToken := { address := "quote", name := "Quote", symbol := "QUOTE" },
    volume := { h24 := 80000, h6 := 0, h1 := 0, m5 := 0 },
    liquidity := { usd := 90000, base := 0, quote := 0 } }

end DexScreenerProvider

/-! ## Shared yield data model (`types/yield.ts`) -/

/-- Opportunity kinds of `YieldOpportunity.type`. -/
inductive OpportunityType where
  | LP
  | STAKING
  | LENDING
  | DELTA_NEUTRAL
  deriving Repr, DecidableEq

/-- Yield opportunity record (`YieldOpportunity`). -/
structure YieldOpportunity where
  protocol : String
  type : OpportunityType
  apy : ℚ
  tvl : ℚ
  risk : ℚ
  tokens : List String
  address : String
  description : String
  deriving Repr, DecidableEq

/-- Pool snapshot (`PoolData`). -/
structure PoolData where
  address : String
  token0 : String
  token1 : String
  fee : ℚ
  liquidity : ℚ
  sqrtPrice : ℚ
  tick : ℚ
  token0Price : ℚ
  token1Price : ℚ
  token0Volume24h : ℚ
  token1Volume24h : ℚ
  volumeUSD24h : ℚ
  feesUSD24h : ℚ
  tvlUSD : ℚ
  deriving Repr, DecidableEq

/-! ## RaydiumProvider -/

namespace RaydiumProvider

/-- Transcription of `RaydiumProvider.calculatePoolAPY`: annualized fee
yield from the 24h fee income over TVL. -/
def calculatePoolAPY (pool : PoolData) : ℚ :=
  let dailyFeeRate := pool.feesUSD24h / pool.tvlUSD
  let yearlyFeeRate := dailyFeeRate * 365
  yearlyFeeRate * 100

/-- Transcription of `RaydiumProvider.calculatePoolRisk`: base risk 5 with
additive penalties for low TVL, low volume and high price impact, capped
at 10.  Rational division is total (`1000 / 0 = 0`), whereas JavaScript
produces `Infinity`; the two semantics pick different penalty branches
only at `tvlUSD = 0`, and both land inside the same `[5, 10]` range, so
the range theorem below is unaffected. -/
def calculatePoolRisk (pool : PoolData) : ℚ :=
  let risk : ℚ := 5
  let risk := if pool.tvlUSD < 100000 then risk + 2 else risk
  let risk := if pool.volumeUSD24h < 10000 then risk + 2 else risk
  let priceImpact := 1000 / pool.tvlUSD
  let risk := if priceImpact > 0.01 then risk + 1 else risk
  min risk 10

/-- Opportunity record pushed by `getLPOpportunities` for one pool. -/
def mkOpportunity (pool : PoolData) : YieldOpportunity :=
  { protocol := "Raydium"
    type := .LP
    apy := calculatePoolAPY pool
    tvl := pool.tvlUSD
    risk := calculatePoolRisk pool
    tokens := [pool.token0, pool.token1]
    address := pool.address
    description := "Raydium LP pool for " ++ pool.token0 ++ "/" ++ pool.token1 }

/-- Transcription of `RaydiumProvider.getLPOpportunities`.  The NodeCache
lookup is passed as `cached`; the outcome of `fetchRaydiumPools` as
`fetchedPools` (that helper catches its own errors and returns the empty
pool list, and the surrounding try/catch of `getLPOpportunities` likewise
converts any thrown error to the empty opportunity list). -/
def getLPOpportunities (cached : Option (List YieldOpportunity))
    (fetchedPools : Except String (List PoolData)) : List YieldOpportunity :=
  match cached with
  | some cachedOpportunities => cachedOpportunities
  | none =>
    let pools := match fetchedPools with
      | .ok pools => pools
      | .error _ => []
    pools.map mkOpportunity

/-- Pool record with 1M USD TVL and 300 USD of 24h fees. -/
def examplePool : PoolData :=
  { address := "pool", token0 := "SOL", token1 := "USDC", fee := 2500,
    liquidity := 0, sqrtPrice := 0, tick := 0, token0Price := 0,
    token1Price := 0, token0Volume24h := 0, token1Volume24h := 0,
    volumeUSD24h := 100000, feesUSD24h := 300, tvlUSD := 1000000 }

end RaydiumProvider

/-! ## MarinadeProvider -/

/-- Epoch sub-record of `MarinadeStakeData`. -/
structure EpochInfo where
  epoch : ℚ
  slotIndex : ℚ
  slotsInEpoch : ℚ
  deriving Repr, DecidableEq

/-- Marinade stake-pool snapshot (`MarinadeStakeData`). -/
structure MarinadeStakeData where
  totalStaked : ℚ
  apy : ℚ
  validatorCount : ℚ
  totalValidators : ℚ
  epochInfo : EpochInfo
  deriving Repr, DecidableEq

/-- Marinade validator record (`ValidatorInfo`). -/
structure ValidatorInfo where
  voteAccount : String
  score : ℚ
  activeStake : ℚ
  commission : ℚ
  apy : ℚ
  deriving Repr, DecidableEq

namespace MarinadeProvider

/-- State account address constant `MARINADE_STATE_ID`. -/
def MARINADE_STATE_ID : String := "8szGkuLTAux9XMgZ2vtY39jVSowEcpBfFfD8hXSEqdGC"

/-- Transcription of `MarinadeProvider.calculateRisk`: base risk 3 plus
penalties for validator concentration and low average validator score,
capped at 10.  Rational division is total (`x / 0 = 0`), whereas
JavaScript produces `Infinity`/`NaN` when `totalValidators` is 0 or the
validator list is empty; the branches differ only there and every branch
stays inside `[3, 10]`, so the range theorem below is unaffected. -/
def calculateRisk (stakeData : MarinadeStakeData)
    (validators : List ValidatorInfo) : ℚ :=
  let risk : ℚ := 3
  let validatorFraction := stakeData.validatorCount / stakeData.totalValidators
  let risk :=
    if validatorFraction < 0.3 then risk + 2
    else if validatorFraction < 0.5 then risk + 1
    else risk
  let avgScore :=
    (validators.foldl (fun sum v => sum + v.score) 0) / (validators.length : ℚ)
  let risk :=
    if avgScore < 70 then risk + 2
    else if avgScore < 85 then risk + 1
    else risk
  min risk 10

/-- Transcription of `MarinadeProvider.calculateValidatorRisk`. -/
def calculateValidatorRisk (validator : ValidatorInfo) : ℚ :=
  let risk : ℚ := 4
  let risk := if validator.commission > 10 then risk + 1 else risk
  let risk :=
    if validator.score < 70 then risk + 3
    else if validator.score < 85 then risk + 2
    else if validator.score < 95 then risk + 1
    else risk
  let risk :=
    if validator.activeStake < 100000 then risk + 2
    else if validator.activeStake < 500000 then risk + 1
    else risk
  min risk 10

/-- Pool-level opportunity pushed by `getStakingOpportunities`. -/
def mkPoolOpportunity (stakeData : MarinadeStakeData)
    (validators : List ValidatorInfo) : YieldOpportunity :=
  { protocol := "Marinade"
    type := .STAKING
    apy := stakeData.apy
    tvl := stakeData.totalStaked
    risk := calculateRisk stakeData validators
    tokens := ["SOL", "mSOL"]
    address := MARINADE_STATE_ID
    description := "Marinade liquid staking with " ++
      toString stakeData.validatorCount ++ " active validators" }

/-- Validator-level opportunity pushed by `getStakingOpportunities` for
validators whose APY exceeds the pool APY. -/
def mkValidatorOpportunity (validator : ValidatorInfo) : YieldOpportunity :=
  { protocol := "Marinade"
    type := .STAKING
    apy := validator.apy
    tvl := validator.activeStake
    risk := calculateValidatorRisk validator
    tokens := ["SOL"]
    address := validator.voteAccount
    description := "Marinade validator staking with " ++
      toString validator.commission ++ "% commission" }

/-- Transcription of `MarinadeProvider.getStakingOpportunities`.  The
NodeCache lookup is passed as `cached`; the outcomes of
`fetchMarinadeStakeData` and `fetchValidatorList` (both can throw) as the
two `Except` parameters.  Any thrown error is caught by the surrounding
try/catch, which returns the empty list. -/
def getStakingOpportunities (cached : Option (List YieldOpportunity))
    (stakeDataResult : Except String MarinadeStakeData)
    (validatorsResult : Except String (List ValidatorInfo)) :
    List YieldOpportunity :=
  match cached with
  | some cachedOpportunities => cachedOpportunities
  | none =>
    match stakeDataResult, validatorsResult with
    | .ok stakeData, .ok validators =>
      mkPoolOpportunity stakeData validators ::
        (validators.filter (fun v => v.apy > stakeData.apy)).map
          mkValidatorOpportunity
    | _, _ => []

end MarinadeProvider

/-! ## YieldProvider.fetchWithRetry -/

namespace YieldProvider

/-- Loop body of `fetchWithRetry`: attempt index `i` walks up while `fuel`
(the number of loop iterations left, initially `retries`) walks down; an
error on the last allowed index (`lastIdx = retries - 1`) is rethrown. -/
def fetchLoop {ε α : Type} (attempt : Nat → Except ε α) (lastIdx : Nat) :
    Nat → Nat → Except ε (Option α)
  | _, 0 => .ok none
  | i, fuel + 1 =>
    match attempt i with
    | .ok d => .ok (some d)
    | .error e =>
      if i = lastIdx then .error e else fetchLoop attempt lastIdx (i + 1) fuel

/-- Transcription of `YieldProvider.fetchWithRetry` (default
`retries = 3`): the result of the HTTP call on the `i`-th attempt is
passed as `attempt i`.  Falling out of the loop without any attempt
(`retries = 0`) returns JavaScript `undefined`, modelled as `none`. -/
def fetchWithRetry {ε α : Type} (attempt : Nat → Except ε α)
    (retries : Nat) : Except ε (Option α) :=
  fetchLoop attempt (retries - 1) 0 retries

end YieldProvider

/-! ## BirdeyeProvider.evaluatePair -/

namespace BirdeyeProvider

/-- Transcription of `BirdeyeProvider.evaluatePair`.  The nine endpoint
calls issued through `Promise.all` (each one rethrowing its own fetch
errors) are passed as `Except` results in array order; the pure
post-processing of the nine successful payloads (risk metrics, market
health, volatility metrics, recommendation, confidence score) is the
`makeEvaluation` function — its volatility branch uses `Math.log` /
`Math.sqrt`, so it is kept parametric rather than transcribed into `ℚ`.
`Promise.all` rejects as soon as any sub-call rejects, so a single error
aborts the whole evaluation and the catch block rethrows it. -/
def evaluatePair {Err Sec PV Hold Trade Hist Eval : Type}
    (baseTokenSecurity quoteTokenSecurity : Except Err Sec)
    (basePriceVolume quotePriceVolume : Except Err PV)
    (baseHolders quoteHolders : Except Err Hold)
    (trades : Except Err Trade)
    (baseHistory quoteHistory : Except Err Hist)
    (makeEvaluation :
      Sec → Sec → PV → PV → Hold → Hold → Trade → Hist → Hist → Eval) :
    Except Err Eval := do
  let baseSec ← baseTokenSecurity
  let quoteSec ← quoteTokenSecurity
  let basePv ← basePriceVolume
  let quotePv ← quotePriceVolume
  let baseHold ← baseHolders
  let quoteHold ← quoteHolders
  let tradeList ← trades
  let baseHist ← baseHistory
  let quoteHist ← quoteHistory
  pure (makeEvaluation baseSec quoteSec basePv quotePv baseHold quoteHold
    tradeList baseHist quoteHist)

end BirdeyeProvider

/-! ## RaydiumClmActions (action layer) -/

/-- Result envelope `{success, message}` returned by the CLM actions. -/
structure ActionResult where
  success : Bool
  message : String
  deriving Repr, DecidableEq

/-- Environment of one CLM action invocation: whether `getPoolInfo`
found the pool, whether `state.get("agentWallet")` yielded a wallet, and
the combined outcome of the SDK transaction build/confirm steps (its
`Except` payload is the thrown error message). -/
structure ClmCallEnv where
  poolInfo : Option String
  agentWallet : Option String
  txResult : Except String Unit
  deriving Repr

namespace RaydiumClmActions

/-- Transcription of `RaydiumClmActions.addLiquidity`: every throw inside
the try block is caught and converted into a `{success: false}` envelope
carrying the error message. -/
def addLiquidity (env : ClmCallEnv) : ActionResult :=
  match env.poolInfo with
  | none => { success := false, message := "Pool not found" }
  | some _ =>
    match env.agentWallet with
    | none => { success := false, message := "Agent wallet not found in state" }
    | some _ =>
      match env.txResult with
      | .error e => { success := false, message := e }
      | .ok _ =>
        { success := true, message := "Liquidity position opened successfully" }

/-- Transcription of `RaydiumClmActions.removeLiquidity`: same catch-all
shape as `addLiquidity`. -/
def removeLiquidity (env : ClmCallEnv) : ActionResult :=
  match env.poolInfo with
  | none => { success := false, message := "Pool not found" }
  | some _ =>
    match env.agentWallet with
    | none => { success := false, message := "Agent wallet not found in state" }
    | some _ =>
      match env.txResult with
      | .error e => { success := false, message := e }
      | .ok _ => { success := true, message := "Liquidity removed successfully" }

/-- Transcription of `RaydiumClmActions.adjustPosition`: awaits
`removeLiquidity` then `addLiquidity` (each of which catches its own
exceptions and never throws), ignores both result envelopes, and returns
the fixed success envelope; the catch branch of `adjustPosition` has no
remaining way to be reached. -/
def adjustPosition (removeEnv addEnv : ClmCallEnv) : ActionResult :=
  let _removed := removeLiquidity removeEnv
  let _added := addLiquidity addEnv
  { success := true, message := "Position adjusted successfully" }

end RaydiumClmActions

/-! ## PoolMonitorJob (polling job) -/

/-- Metrics block of a `TokenPairEvaluator` analysis read by
`shouldAdjustPosition`. -/
structure AnalysisMetrics where
  priceVolatility : ℚ
  volumeHealth : ℚ
  deriving Repr, DecidableEq

/-- Recommendation block of an analysis; `ammScores` is a JavaScript
object keyed by AMM name, modelled as an association list with distinct
keys. -/
structure AnalysisRecommendation where
  preferredAmm : String
  ammScores : List (String × ℚ)
  shouldProvide : Bool
  suggestedTickLower : ℚ
  suggestedTickUpper : ℚ
  maxLiquidityUsd : ℚ
  deriving Repr, DecidableEq

/-- Pair analysis produced by `evaluator.evaluatePair`. -/
structure PairAnalysis where
  metrics : AnalysisMetrics
  recommendation : AnalysisRecommendation
  deriving Repr, DecidableEq

/-- Monitored-pool entry (`MonitoredPool`). -/
structure MonitoredPool where
  baseAddress : String
  quoteAddress : String
  lastCheck : ℤ
  lastAnalysis : PairAnalysis
  currentAmm : String
  deriving Repr, DecidableEq

/-- Action-layer invocations observable from `PoolMonitorJob`. -/
inductive ActionCall where
  | removeLiquidity (baseAddress quoteAddress : String) (percentage : ℚ)
  | addLiquidity (baseAddress quoteAddress : String)
      (lowerTick upperTick amountUsd : ℚ)
  | adjustPosition (baseAddress quoteAddress : String)
      (lowerTick upperTick amountUsd : ℚ)
  deriving Repr, DecidableEq

namespace PoolMonitorJob

/-- Polling interval constant (`checkInterval = 5 * 60 * 1000` ms). -/
def checkInterval : ℤ := 5 * 60 * 1000

/-- Lookup of `ammScores[amm]` on a JavaScript object: the first binding
with the given key, if any. -/
def lookupScore (scores : List (String × ℚ)) (amm : String) : Option ℚ :=
  (scores.find? (fun binding => binding.1 == amm)).map Prod.snd

/-- Transcription of `PoolMonitorJob.shouldAdjustPosition`.  A missing key
in the new score object makes the JavaScript comparison `NaN > 0.2`
evaluate to false, modelled by the `none` branch; rational division by
zero (total, yielding 0) agrees with the JavaScript `NaN > 0.2 = false`
outcome in the equal-scores case these theorems rely on. -/
def shouldAdjustPosition (oldAnalysis newAnalysis : PairAnalysis) : Bool :=
  let volatilityChange :=
    |oldAnalysis.metrics.priceVolatility - newAnalysis.metrics.priceVolatility|
  let volumeChange :=
    |oldAnalysis.metrics.volumeHealth - newAnalysis.metrics.volumeHealth|
  let ammScoreChange :=
    oldAnalysis.recommendation.ammScores.any (fun binding =>
      match lookupScore newAnalysis.recommendation.ammScores binding.1 with
      | some newScore => decide (|binding.2 - newScore| / binding.2 > 0.2)
      | none => false)
  decide (volatilityChange > 20) || decide (volumeChange > 30) || ammScoreChange

/-- Transcription of `PoolMonitorJob.adjustPosition` (the private method of
the job, called with the already-updated pool record): emits the
action-layer calls it would make. -/
def adjustPositionActions (pool : MonitoredPool) (analysis : PairAnalysis) :
    List ActionCall :=
  if !analysis.recommendation.shouldProvide then
    if pool.currentAmm == "raydium" then
      [.removeLiquidity pool.baseAddress pool.quoteAddress 100]
    else []
  else
    if analysis.recommendation.preferredAmm == "raydium" then
      [.adjustPosition pool.baseAddress pool.quoteAddress
        analysis.recommendation.suggestedTickLower
        analysis.recommendation.suggestedTickUpper
        analysis.recommendation.maxLiquidityUsd]
    else []

/-- Transcription of `PoolMonitorJob.checkPool` for a pool present in the
monitored map.  The evaluator result is passed as `analysis`.  The source
mutates `pool.lastAnalysis` to the fresh `analysis` BEFORE calling
`shouldAdjustPosition(pool.lastAnalysis, analysis)`, which the updated
record `pool1` mirrors.  Returns the updated pool entry and the
action-layer calls made. -/
def checkPool (pool : MonitoredPool) (now : ℤ) (analysis : PairAnalysis) :
    MonitoredPool × List ActionCall :=
  if now - pool.lastCheck < checkInterval then (pool, [])
  else
    let switchActions :=
      if analysis.recommendation.preferredAmm ≠ pool.currentAmm ∧
          pool.currentAmm = "raydium" then
        [ActionCall.removeLiquidity pool.baseAddress pool.quoteAddress 100]
      else []
    let pool1 := { pool with
      lastCheck := now
      lastAnalysis := analysis
      currentAmm := analysis.recommendation.preferredAmm }
    let adjustActions :=
      if shouldAdjustPosition pool1.lastAnalysis analysis then
        adjustPositionActions pool1 analysis
      else []
    (pool1, switchActions ++ adjustActions)

/-- Recognizer for action-layer calls that remove liquidity. -/
def isRemoveLiquidityCall : ActionCall → Bool
  | .removeLiquidity _ _ _ => true
  | _ => false

/-- Pair analysis preferring Meteora, with calm metrics. -/
def monitorNewAnalysis : PairAnalysis :=
  { metrics := { priceVolatility := 10, volumeHealth := 100 },
    recommendation :=
      { preferredAmm := "meteora",
        ammScores := [("raydium", 50), ("orca", 40)],
        shouldProvide := true,
        suggestedTickLower := -10,
        suggestedTickUpper := 10,
        maxLiquidityUsd := 1000 } }

/-- Stored analysis with wildly different metrics and AMM scores. -/
def monitorOldAnalysis : PairAnalysis :=
  { metrics := { priceVolatility := 500, volumeHealth := 900 },
    recommendation :=
      { preferredAmm := "raydium",
        ammScores := [("raydium", 99), ("orca", 1)],
        shouldProvide := true,
        suggestedTickLower := -100,
        suggestedTickUpper := 100,
        maxLiquidityUsd := 5000 } }

/-- Monitored pool whose metrics have drifted far from the fresh analysis. -/
def driftedPool : MonitoredPool :=
  { baseAddress := "base", quoteAddress := "quote", lastCheck := 0,
    lastAnalysis := monitorOldAnalysis, currentAmm := "raydium" }

/-- Monitored pool whose stored analysis equals the fresh one. -/
def steadyPool : MonitoredPool :=
  { baseAddress := "base", quoteAddress := "quote", lastCheck := 0,
    lastAnalysis := monitorNewAnalysis, currentAmm := "meteora" }

end PoolMonitorJob

/-- CLM call environment in which every step fails: no pool, no wallet,
failing transaction. -/
def failedClmEnv : ClmCallEnv :=
  { poolInfo := none, agentWallet := none, txResult := .error "SDK failure" }

/-! Theorems -/

/-- Claim C1 helper: whenever `isHoneypot` is set, the 100-point deduction
drives the security sub-score to its lower clamp 0, whatever the other
flags are. -/
theorem securityScoreOf_honeypot (security : TokenSecurityMetrics)
    (trading : TokenTradingMetrics) (h : security.isHoneypot = true) :
    TokenPairTrustManager.securityScoreOf security trading = 0 := by
  simp only [TokenPairTrustManager.securityScoreOf, h, if_true]
  split_ifs <;> norm_num [max_def]

/-- C1 counterexample: a honeypot security object indeed gets
`securityScore = 0`, but with trading metrics saturating the other four
sub-scores the overall trust score is 80 ≥ 70, so
`recommendations.shouldProvide` is `true`, refuting the claim that it is
`false` for every trading-metrics input. -/
theorem honeypot_trustState_counterexample :
    TokenPairTrustManager.honeypotSecurity.isHoneypot = true ∧
    (TokenPairTrustManager.calculateScores TokenPairTrustManager.honeypotSecurity
      TokenPairTrustManager.strongTrading 0).securityScore = 0 ∧
    (TokenPairTrustManager.calculateScores TokenPairTrustManager.honeypotSecurity
      TokenPairTrustManager.strongTrading 0).overallTrustScore = 80 ∧
    (TokenPairTrustManager.getTrustState "base" "quote"
      TokenPairTrustManager.honeypotSecurity TokenPairTrustManager.strongTrading
      0).recommendations.shouldProvide = true := by
  refine ⟨rfl, ?_, ?_, ?_⟩ <;>
    norm_num [TokenPairTrustManager.calculateScores,
      TokenPairTrustManager.securityScoreOf,
      TokenPairTrustManager.getTrustState,
      TokenPairTrustManager.honeypotSecurity,
      TokenPairTrustManager.strongTrading, min_def, max_def]

/-- Claim C1 (amended): with `isHoneypot = true` the security sub-score is
0, the overall trust score is exactly the 0.2-weighted sum of the four
remaining sub-scores (hence at most 80: the 20-point security contribution
is lost), and `shouldProvide` equals the test `overallTrustScore ≥ 70`,
which can still be true — it is not unconditionally false. -/
theorem calculateScores_honeypot_amended
    (security : TokenSecurityMetrics) (trading : TokenTradingMetrics)
    (now : ℤ) (b q : String) (h : security.isHoneypot = true) :
    (TokenPairTrustManager.calculateScores security trading now).securityScore = 0 ∧
    (TokenPairTrustManager.calculateScores security trading now).overallTrustScore =
      ((TokenPairTrustManager.calculateScores security trading now).volumeScore +
       (TokenPairTrustManager.calculateScores security trading now).liquidityScore +
       (TokenPairTrustManager.calculateScores security trading now).volatilityScore +
       (TokenPairTrustManager.calculateScores security trading now).transactionScore) * 0.2 ∧
    (TokenPairTrustManager.calculateScores security trading now).overallTrustScore ≤ 80 ∧
    (TokenPairTrustManager.getTrustState b q security trading
      now).recommendations.shouldProvide =
      decide ((TokenPairTrustManager.calculateScores security trading
        now).overallTrustScore ≥ 70) := by
  have hs := securityScoreOf_honeypot security trading h
  refine ⟨?_, ?_, ?_, ?_⟩
  · simp [TokenPairTrustManager.calculateScores, hs]
  · simp only [TokenPairTrustManager.calculateScores, hs]
    ring
  · simp only [TokenPairTrustManager.calculateScores, hs]
    have h1 : min 100 (trading.volume24h / 50000 * 100) ≤ 100 := min_le_left _ _
    have h2 : min 100 (trading.liquidityUSD / 100000 * 100) ≤ 100 :=
      min_le_left _ _
    have h3 : max 0 (100 - |trading.priceChange24h| * 2) ≤ (100 : ℚ) := by
      have := abs_nonneg trading.priceChange24h
      apply max_le <;> linarith
    have h4 : min 100 (trading.uniqueHolders / 1000 * 100) ≤ 100 :=
      min_le_left _ _
    nlinarith
  · rfl

/-- Claim C1 witness: the amended statement instantiated at the honeypot
security object and the saturating trading metrics. -/
theorem calculateScores_honeypot_amended_witness :
    (TokenPairTrustManager.calculateScores TokenPairTrustManager.honeypotSecurity
      TokenPairTrustManager.strongTrading 0).securityScore = 0 ∧
    (TokenPairTrustManager.calculateScores TokenPairTrustManager.honeypotSecurity
      TokenPairTrustManager.strongTrading 0).overallTrustScore =
      ((TokenPairTrustManager.calculateScores TokenPairTrustManager.honeypotSecurity
        TokenPairTrustManager.strongTrading 0).volumeScore +
       (TokenPairTrustManager.calculateScores TokenPairTrustManager.honeypotSecurity
        TokenPairTrustManager.strongTrading 0).liquidityScore +
       (TokenPairTrustManager.calculateScores TokenPairTrustManager.honeypotSecurity
        TokenPairTrustManager.strongTrading 0).volatilityScore +
       (TokenPairTrustManager.calculateScores TokenPairTrustManager.honeypotSecurity
        TokenPairTrustManager.strongTrading 0).transactionScore) * 0.2 ∧
    (TokenPairTrustManager.calculateScores TokenPairTrustManager.honeypotSecurity
      TokenPairTrustManager.strongTrading 0).overallTrustScore ≤ 80 ∧
    (TokenPairTrustManager.getTrustState "base" "quote"
      TokenPairTrustManager.honeypotSecurity TokenPairTrustManager.strongTrading
      0).recommendations.shouldProvide =
      decide ((TokenPairTrustManager.calculateScores
        TokenPairTrustManager.honeypotSecurity TokenPairTrustManager.strongTrading
        0).overallTrustScore ≥ 70) :=
  calculateScores_honeypot_amended TokenPairTrustManager.honeypotSecurity
    TokenPairTrustManager.strongTrading 0 "base" "quote" rfl

namespace DexScreenerProvider

theorem reduceBest_cons (a x : BestDexResult) (xs : List BestDexResult) :
    reduceBest a (x :: xs) =
      reduceBest (if x.score > a.score then x else a) xs := rfl

theorem reduceBest_eq_or_mem :
    ∀ (l : List BestDexResult) (a : BestDexResult),
      reduceBest a l = a ∨ reduceBest a l ∈ l
  | [], _ => Or.inl rfl
  | x :: xs, a => by
    rw [reduceBest_cons]
    rcases reduceBest_eq_or_mem xs (if x.score > a.score then x else a) with h | h
    · rw [h]
      split_ifs with hx
      · exact Or.inr (List.mem_cons_self _ _)
      · exact Or.inl rfl
    · exact Or.inr (List.mem_cons_of_mem _ h)

theorem le_reduceBest :
    ∀ (l : List BestDexResult) (a : BestDexResult),
      a.score ≤ (reduceBest a l).score
  | [], _ => le_refl _
  | x :: xs, a => by
    rw [reduceBest_cons]
    refine le_trans ?_ (le_reduceBest xs _)
    split_ifs with hx
    · exact le_of_lt hx
    · exact le_refl _

theorem reduceBest_ge_mem :
    ∀ (l : List BestDexResult) (a : BestDexResult),
      ∀ x ∈ l, x.score ≤ (reduceBest a l).score
  | [], _, x, hx => absurd hx (List.not_mem_nil _)
  | y :: ys, a, x, hx => by
    rw [reduceBest_cons]
    rcases List.mem_cons.mp hx with rfl | hmem
    · refine le_trans ?_ (le_reduceBest ys _)
      split_ifs with hy
      · exact le_refl _
      · exact le_of_not_lt hy
    · exact reduceBest_ge_mem ys _ x hmem

theorem reduceBest_of_le :
    ∀ (l : List BestDexResult) (a : BestDexResult),
      (∀ x ∈ l, x.score ≤ a.score) → reduceBest a l = a
  | [], _, _ => rfl
  | x :: xs, a, h => by
    rw [reduceBest_cons]
    have hx : ¬ x.score > a.score := not_lt.mpr (h x (List.mem_cons_self _ _))
    rw [if_neg hx]
    exact reduceBest_of_le xs a fun y hy => h y (List.mem_cons_of_mem _ hy)

end DexScreenerProvider

/-- Claim C2: for a non-empty list of candidates matching the token pair,
`getBestDexForPair` returns the scored candidate maximizing
`0.7 * volume.h24 + 0.3 * liquidity.usd`; the earlier candidate is kept
whenever no later one scores strictly higher (so ties keep the earlier
one); on the (volume 100k, liquidity 50k) vs (volume 80k, liquidity 90k)
example the first candidate wins with score 85000 against 83000. -/
theorem getBestDexForPair_selects_max :
    (∀ (base quote : String) (pairs : List DexScreenerPair)
       (p : DexScreenerPair) (rest : List DexScreenerPair),
      pairs.filter (DexScreenerProvider.matchesTokenPair base quote) =
        p :: rest →
      (DexScreenerProvider.getBestDexForPair base quote pairs ∈
         (p :: rest).map DexScreenerProvider.scorePair ∧
       ∀ q ∈ (p :: rest).map DexScreenerProvider.scorePair,
         q.score ≤
           (DexScreenerProvider.getBestDexForPair base quote pairs).score) ∧
      ((∀ q ∈ rest.map DexScreenerProvider.scorePair,
          q.score ≤ (DexScreenerProvider.scorePair p).score) →
        DexScreenerProvider.getBestDexForPair base quote pairs =
          DexScreenerProvider.scorePair p)) ∧
    (DexScreenerProvider.getBestDexForPair "base" "quote"
        [DexScreenerProvider.examplePairA, DexScreenerProvider.examplePairB] =
      DexScreenerProvider.scorePair DexScreenerProvider.examplePairA ∧
     (DexScreenerProvider.scorePair DexScreenerProvider.examplePairA).score =
       85000 ∧
     (DexScreenerProvider.scorePair DexScreenerProvider.examplePairB).score =
       83000) := by
  constructor
  · intro base quote pairs p rest hfilter
    have hdef : DexScreenerProvider.getBestDexForPair base quote pairs =
        DexScreenerProvider.reduceBest (DexScreenerProvider.scorePair p)
          (rest.map DexScreenerProvider.scorePair) := by
      simp [DexScreenerProvider.getBestDexForPair, hfilter]
    refine ⟨⟨?_, ?_⟩, ?_⟩
    · rw [hdef]
      rcases DexScreenerProvider.reduceBest_eq_or_mem
          (rest.map DexScreenerProvider.scorePair)
          (DexScreenerProvider.scorePair p) with h | h
      · rw [h]; exact List.mem_cons_self _ _
      · exact List.mem_cons_of_mem _ h
    · intro q hq
      rw [hdef]
      rcases List.mem_cons.mp hq with rfl | hmem
      · exact DexScreenerProvider.le_reduceBest _ _
      · exact DexScreenerProvider.reduceBest_ge_mem _ _ q hmem
    · intro hle
      rw [hdef]
      exact DexScreenerProvider.reduceBest_of_le _ _ hle
  · refine ⟨?_, ?_, ?_⟩
    · have hfilt : List.filter
          (DexScreenerProvider.matchesTokenPair "base" "quote")
          [DexScreenerProvider.examplePairA, DexScreenerProvider.examplePairB] =
          [DexScreenerProvider.examplePairA, DexScreenerProvider.examplePairB] :=
        rfl
      have hcmp : ¬ (DexScreenerProvider.scorePair
            DexScreenerProvider.examplePairB).score >
          (DexScreenerProvider.scorePair
            DexScreenerProvider.examplePairA).score := by
        norm_num [DexScreenerProvider.scorePair,
          DexScreenerProvider.examplePairA, DexScreenerProvider.examplePairB]
      have hstep : DexScreenerProvider.getBestDexForPair "base" "quote"
          [DexScreenerProvider.examplePairA, DexScreenerProvider.examplePairB] =
          DexScreenerProvider.reduceBest
            (DexScreenerProvider.scorePair DexScreenerProvider.examplePairA)
            [DexScreenerProvider.scorePair DexScreenerProvider.examplePairB] := by
        unfold DexScreenerProvider.getBestDexForPair
        rw [hfilt]
        rfl
      rw [hstep, DexScreenerProvider.reduceBest_cons, if_neg hcmp]
      rfl
    · norm_num [DexScreenerProvider.scorePair, DexScreenerProvider.examplePairA]
    · norm_num [DexScreenerProvider.scorePair, DexScreenerProvider.examplePairB]

/-- Claim C2 witness: on the two-candidate example list the filter keeps
both candidates and the first (higher-scoring) one is selected. -/
theorem getBestDexForPair_selects_max_witness :
    List.filter (DexScreenerProvider.matchesTokenPair "base" "quote")
      [DexScreenerProvider.examplePairA, DexScreenerProvider.examplePairB] =
      DexScreenerProvider.examplePairA ::
        [DexScreenerProvider.examplePairB] ∧
    DexScreenerProvider.getBestDexForPair "base" "quote"
      [DexScreenerProvider.examplePairA, DexScreenerProvider.examplePairB] =
      DexScreenerProvider.scorePair DexScreenerProvider.examplePairA :=
  have hfilt : List.filter
      (DexScreenerProvider.matchesTokenPair "base" "quote")
      [DexScreenerProvider.examplePairA, DexScreenerProvider.examplePairB] =
      DexScreenerProvider.examplePairA ::
        [DexScreenerProvider.examplePairB] := rfl
  ⟨hfilt,
   (getBestDexForPair_selects_max.1 "base" "quote"
      [DexScreenerProvider.examplePairA, DexScreenerProvider.examplePairB]
      DexScreenerProvider.examplePairA [DexScreenerProvider.examplePairB]
      hfilt).2
     (by
       intro q hq
       simp only [List.map_cons, List.map_nil, List.mem_singleton] at hq
       subst hq
       norm_num [DexScreenerProvider.scorePair,
         DexScreenerProvider.examplePairA,
         DexScreenerProvider.examplePairB])⟩

/-- Claim C3: for every pool with positive TVL the Raydium APY formula is
`(feesUSD24h / tvlUSD) * 365 * 100`; at `tvlUSD = 1000000` and
`feesUSD24h = 300` it yields exactly 10.95. -/
theorem calculatePoolAPY_formula (pool : PoolData) (_h : 0 < pool.tvlUSD) :
    RaydiumProvider.calculatePoolAPY pool =
      pool.feesUSD24h / pool.tvlUSD * 365 * 100 ∧
    RaydiumProvider.calculatePoolAPY RaydiumProvider.examplePool = 10.95 := by
  constructor
  · rfl
  · norm_num [RaydiumProvider.calculatePoolAPY, RaydiumProvider.examplePool]

/-- Claim C3 witness: the formula and the 10.95 instance at the concrete
example pool. -/
theorem calculatePoolAPY_formula_witness :
    RaydiumProvider.calculatePoolAPY RaydiumProvider.examplePool =
      RaydiumProvider.examplePool.feesUSD24h /
        RaydiumProvider.examplePool.tvlUSD * 365 * 100 ∧
    RaydiumProvider.calculatePoolAPY RaydiumProvider.examplePool = 10.95 :=
  calculatePoolAPY_formula RaydiumProvider.examplePool
    (by norm_num [RaydiumProvider.examplePool])

namespace YieldProvider

theorem fetchLoop_zero {ε α : Type} (attempt : Nat → Except ε α)
    (lastIdx i : Nat) : fetchLoop attempt lastIdx i 0 = .ok none := rfl

theorem fetchLoop_succeeds {ε α : Type} (attempt : Nat → Except ε α)
    (retries N : Nat) (d : α) (errs : Nat → ε)
    (hN : N < retries)
    (hfail : ∀ i, i < N → attempt i = .error (errs i))
    (hok : attempt N = .ok d) :
    ∀ fuel i, i + fuel = retries → i ≤ N →
      fetchLoop attempt (retries - 1) i fuel = .ok (some d) := by
  intro fuel
  induction fuel with
  | zero => intro i hi hiN; omega
  | succ fuel ih =>
    intro i hi hiN
    by_cases hcase : i = N
    · subst hcase
      show (match attempt i with
        | .ok d => Except.ok (some d)
        | .error e =>
          if i = retries - 1 then .error e
          else fetchLoop attempt (retries - 1) (i + 1) fuel) = .ok (some d)
      rw [hok]
    · have hlt : i < N := lt_of_le_of_ne hiN hcase
      show (match attempt i with
        | .ok d => Except.ok (some d)
        | .error e =>
          if i = retries - 1 then .error e
          else fetchLoop attempt (retries - 1) (i + 1) fuel) = .ok (some d)
      rw [hfail i hlt]
      show (if i = retries - 1 then Except.error (errs i)
        else fetchLoop attempt (retries - 1) (i + 1) fuel) = .ok (some d)
      rw [if_neg (by omega)]
      exact ih (i + 1) (by omega) (by omega)

theorem fetchLoop_all_fail {ε α : Type} (attempt : Nat → Except ε α)
    (retries : Nat) (errs : Nat → ε)
    (hfail : ∀ i, i < retries → attempt i = .error (errs i)) :
    ∀ fuel i, i + fuel = retries → 0 < fuel →
      fetchLoop attempt (retries - 1) i fuel = .error (errs (retries - 1)) := by
  intro fuel
  induction fuel with
  | zero => intro i hi hpos; omega
  | succ fuel ih =>
    intro i hi hpos
    have hilt : i < retries := by omega
    show (match attempt i with
      | .ok d => Except.ok (some d)
      | .error e =>
        if i = retries - 1 then .error e
        else fetchLoop attempt (retries - 1) (i + 1) fuel) =
      .error (errs (retries - 1))
    rw [hfail i hilt]
    show (if i = retries - 1 then Except.error (errs i)
      else fetchLoop attempt (retries - 1) (i + 1) fuel) =
      .error (errs (retries - 1))
    by_cases hlast : i = retries - 1
    · rw [if_pos hlast, hlast]
    · rw [if_neg hlast]
      exact ih (i + 1) (by omega) (by omega)

end YieldProvider

/-- Claim C4: if the first N attempts fail with N below the retry cap and
attempt N+1 (index N) succeeds, `fetchWithRetry` returns that attempt's
data; if every attempt up to the cap fails, it rethrows the last error. -/
theorem fetchWithRetry_spec :
    (∀ (ε α : Type) (attempt : Nat → Except ε α) (retries N : Nat) (d : α)
       (errs : Nat → ε),
      N < retries →
      (∀ i, i < N → attempt i = .error (errs i)) →
      attempt N = .ok d →
      YieldProvider.fetchWithRetry attempt retries = .ok (some d)) ∧
    (∀ (ε α : Type) (attempt : Nat → Except ε α) (retries : Nat)
       (errs : Nat → ε),
      0 < retries →
      (∀ i, i < retries → attempt i = .error (errs i)) →
      YieldProvider.fetchWithRetry attempt retries =
        .error (errs (retries - 1))) := by
  constructor
  · intro ε α attempt retries N d errs hN hfail hok
    exact YieldProvider.fetchLoop_succeeds attempt retries N d errs hN hfail hok
      retries 0 (by omega) (by omega)
  · intro ε α attempt retries errs hpos hfail
    exact YieldProvider.fetchLoop_all_fail attempt retries errs hfail retries 0
      (by omega) hpos

/-- Claim C4 witness: two failures then a success on the third of three
attempts returns the data; three failures out of three rethrows the last
error. -/
theorem fetchWithRetry_spec_witness :
    YieldProvider.fetchWithRetry
      (fun i => if i < 2 then (Except.error "fail" : Except String ℚ)
        else .ok 42) 3 = .ok (some 42) ∧
    YieldProvider.fetchWithRetry
      (fun i => (Except.error (toString i) : Except String ℚ)) 3 =
      .error "2" :=
  ⟨fetchWithRetry_spec.1 String ℚ
      (fun i => if i < 2 then .error "fail" else .ok 42) 3 2 42
      (fun _ => "fail") (by omega)
      (fun i hi => by simp [hi])
      (by simp),
   fetchWithRetry_spec.2 String ℚ (fun i => .error (toString i)) 3 toString
      (by omega) (fun i hi => rfl)⟩

/-- Claim C5: the opportunity-listing entry points return either the full
computed list or the empty list — an error anywhere in the fetch phase
yields `[]`, and a successful fetch yields exactly one record per source
datum, never a partially populated list. -/
theorem opportunities_error_to_empty :
    (∀ e : String, RaydiumProvider.getLPOpportunities none (.error e) = []) ∧
    (∀ pools : List PoolData,
      RaydiumProvider.getLPOpportunities none (.ok pools) =
        pools.map RaydiumProvider.mkOpportunity) ∧
    (∀ (stakeDataResult : Except String MarinadeStakeData)
       (validatorsResult : Except String (List ValidatorInfo)),
      stakeDataResult.isOk = false ∨ validatorsResult.isOk = false →
      MarinadeProvider.getStakingOpportunities none stakeDataResult
        validatorsResult = []) ∧
    (∀ (stakeData : MarinadeStakeData) (validators : List ValidatorInfo),
      MarinadeProvider.getStakingOpportunities none (.ok stakeData)
        (.ok validators) =
        MarinadeProvider.mkPoolOpportunity stakeData validators ::
          (validators.filter (fun v => v.apy > stakeData.apy)).map
            MarinadeProvider.mkValidatorOpportunity) := by
  refine ⟨fun e => rfl, fun pools => rfl, ?_, fun stakeData validators => rfl⟩
  intro stakeDataResult validatorsResult h
  cases stakeDataResult with
  | error e => rfl
  | ok stakeData =>
    cases validatorsResult with
    | error e => rfl
    | ok validators => simp [Except.isOk, Except.toBool] at h

/-- Claim C5 witness: a failed Marinade stake-data fetch yields the empty
opportunity list. -/
theorem opportunities_error_to_empty_witness :
    MarinadeProvider.getStakingOpportunities none (.error "network down")
      (.ok []) = [] :=
  opportunities_error_to_empty.2.2.1 (.error "network down") (.ok [])
    (Or.inl rfl)

/-- Claim C6: if any of the nine concurrently issued sub-fetches of
`evaluatePair` rejects, the whole evaluation is an error — one of the
sub-call errors — and no evaluation value is produced, discarding the
successful sub-results. -/
theorem evaluatePair_rejects_on_any_failure :
    ∀ (Err Sec PV Hold Trade Hist Eval : Type)
      (baseSec quoteSec : Except Err Sec) (basePv quotePv : Except Err PV)
      (baseHold quoteHold : Except Err Hold) (trades : Except Err Trade)
      (baseHist quoteHist : Except Err Hist)
      (mkEval : Sec → Sec → PV → PV → Hold → Hold → Trade → Hist → Hist → Eval),
    (baseSec.isOk = false ∨ quoteSec.isOk = false ∨ basePv.isOk = false ∨
     quotePv.isOk = false ∨ baseHold.isOk = false ∨ quoteHold.isOk = false ∨
     trades.isOk = false ∨ baseHist.isOk = false ∨ quoteHist.isOk = false) →
    ∃ e, BirdeyeProvider.evaluatePair baseSec quoteSec basePv quotePv baseHold
        quoteHold trades baseHist quoteHist mkEval = .error e ∧
      (baseSec = .error e ∨ quoteSec = .error e ∨ basePv = .error e ∨
       quotePv = .error e ∨ baseHold = .error e ∨ quoteHold = .error e ∨
       trades = .error e ∨ baseHist = .error e ∨ quoteHist = .error e) := by
  intro Err Sec PV Hold Trade Hist Eval baseSec quoteSec basePv quotePv
    baseHold quoteHold trades baseHist quoteHist mkEval h
  rcases baseSec with e | baseSec
  · exact ⟨e, rfl, by tauto⟩
  rcases quoteSec with e | quoteSec
  · exact ⟨e, rfl, by tauto⟩
  rcases basePv with e | basePv
  · exact ⟨e, rfl, by tauto⟩
  rcases quotePv with e | quotePv
  · exact ⟨e, rfl, by tauto⟩
  rcases baseHold with e | baseHold
  · exact ⟨e, rfl, by tauto⟩
  rcases quoteHold with e | quoteHold
  · exact ⟨e, rfl, by tauto⟩
  rcases trades with e | trades
  · exact ⟨e, rfl, by tauto⟩
  rcases baseHist with e | baseHist
  · exact ⟨e, rfl, by tauto⟩
  rcases quoteHist with e | quoteHist
  · exact ⟨e, rfl, by tauto⟩
  simp [Except.isOk, Except.toBool] at h

/-- Claim C6 witness: with eight successful sub-calls and a failing
trades fetch, `evaluatePair` propagates exactly that error. -/
theorem evaluatePair_rejects_on_any_failure_witness :
    ∃ e, BirdeyeProvider.evaluatePair (Except.ok (0 : ℚ)) (Except.ok (0 : ℚ))
        (Except.ok (0 : ℚ)) (Except.ok (0 : ℚ)) (Except.ok (0 : ℚ))
        (Except.ok (0 : ℚ)) (Except.error "rate limited" : Except String ℚ)
        (Except.ok (0 : ℚ)) (Except.ok (0 : ℚ))
        (fun _ _ _ _ _ _ _ _ _ => (0 : ℚ)) = .error e ∧
      ((Except.ok (0 : ℚ) : Except String ℚ) = .error e ∨
       (Except.ok (0 : ℚ) : Except String ℚ) = .error e ∨
       (Except.ok (0 : ℚ) : Except String ℚ) = .error e ∨
       (Except.ok (0 : ℚ) : Except String ℚ) = .error e ∨
       (Except.ok (0 : ℚ) : Except String ℚ) = .error e ∨
       (Except.ok (0 : ℚ) : Except String ℚ) = .error e ∨
       (Except.error "rate limited" : Except String ℚ) = .error e ∨
       (Except.ok (0 : ℚ) : Except String ℚ) = .error e ∨
       (Except.ok (0 : ℚ) : Except String ℚ) = .error e) :=
  evaluatePair_rejects_on_any_failure String ℚ ℚ ℚ ℚ ℚ ℚ
    (Except.ok 0) (Except.ok 0) (Except.ok 0) (Except.ok 0) (Except.ok 0)
    (Except.ok 0) (Except.error "rate limited") (Except.ok 0) (Except.ok 0)
    (fun _ _ _ _ _ _ _ _ _ => 0)
    (Or.inr (Or.inr (Or.inr (Or.inr (Or.inr (Or.inr (Or.inl rfl)))))))

/-- Claim C7: the provider risk scores always lie in [0, 10]
(`RaydiumProvider.calculatePoolRisk`, `MarinadeProvider.calculateRisk`,
`MarinadeProvider.calculateValidatorRisk`), the Raydium APY is
non-negative for non-negative fees and positive TVL, and hence every
opportunity returned by a successful Raydium fetch over such pools has
`risk ∈ [0, 10]` and `apy ≥ 0`. -/
theorem risk_and_apy_bounds :
    (∀ pool : PoolData, 0 ≤ RaydiumProvider.calculatePoolRisk pool ∧
      RaydiumProvider.calculatePoolRisk pool ≤ 10) ∧
    (∀ (stakeData : MarinadeStakeData) (validators : List ValidatorInfo),
      0 ≤ MarinadeProvider.calculateRisk stakeData validators ∧
      MarinadeProvider.calculateRisk stakeData validators ≤ 10) ∧
    (∀ validator : ValidatorInfo,
      0 ≤ MarinadeProvider.calculateValidatorRisk validator ∧
      MarinadeProvider.calculateValidatorRisk validator ≤ 10) ∧
    (∀ pool : PoolData, 0 ≤ pool.feesUSD24h → 0 < pool.tvlUSD →
      0 ≤ RaydiumProvider.calculatePoolAPY pool) ∧
    (∀ pools : List PoolData,
      (∀ pool ∈ pools, 0 ≤ pool.feesUSD24h ∧ 0 < pool.tvlUSD) →
      ∀ opp ∈ RaydiumProvider.getLPOpportunities none (.ok pools),
        (0 ≤ opp.risk ∧ opp.risk ≤ 10) ∧ 0 ≤ opp.apy) := by
  have hriskR : ∀ pool : PoolData,
      0 ≤ RaydiumProvider.calculatePoolRisk pool ∧
      RaydiumProvider.calculatePoolRisk pool ≤ 10 := by
    intro pool
    constructor <;>
      (simp only [RaydiumProvider.calculatePoolRisk]
       split_ifs <;> norm_num [min_def])
  have hapy : ∀ pool : PoolData, 0 ≤ pool.feesUSD24h → 0 < pool.tvlUSD →
      0 ≤ RaydiumProvider.calculatePoolAPY pool := by
    intro pool hfees htvl
    simp only [RaydiumProvider.calculatePoolAPY]
    have h1 : (0 : ℚ) ≤ pool.feesUSD24h / pool.tvlUSD :=
      div_nonneg hfees htvl.le
    nlinarith
  refine ⟨hriskR, ?_, ?_, hapy, ?_⟩
  · intro stakeData validators
    constructor <;>
      (simp only [MarinadeProvider.calculateRisk]
       split_ifs <;> norm_num [min_def])
  · intro validator
    constructor <;>
      (simp only [MarinadeProvider.calculateValidatorRisk]
       split_ifs <;> norm_num [min_def])
  · intro pools hpools opp hopp
    rw [show RaydiumProvider.getLPOpportunities none (.ok pools) =
        pools.map RaydiumProvider.mkOpportunity from rfl] at hopp
    obtain ⟨pool, hpool, rfl⟩ := List.mem_map.mp hopp
    obtain ⟨hfees, htvl⟩ := hpools pool hpool
    exact ⟨hriskR pool, hapy pool hfees htvl⟩

/-- Claim C7 witness: the bounds instantiated at the concrete example
pool. -/
theorem risk_and_apy_bounds_witness :
    (0 ≤ RaydiumProvider.calculatePoolAPY RaydiumProvider.examplePool) ∧
    ((0 ≤ (RaydiumProvider.mkOpportunity RaydiumProvider.examplePool).risk ∧
      (RaydiumProvider.mkOpportunity RaydiumProvider.examplePool).risk ≤ 10) ∧
     0 ≤ (RaydiumProvider.mkOpportunity RaydiumProvider.examplePool).apy) :=
  ⟨risk_and_apy_bounds.2.2.2.1 RaydiumProvider.examplePool
      (by norm_num [RaydiumProvider.examplePool])
      (by norm_num [RaydiumProvider.examplePool]),
   risk_and_apy_bounds.2.2.2.2 [RaydiumProvider.examplePool]
      (by
        intro pool hpool
        rw [List.mem_singleton] at hpool
        subst hpool
        norm_num [RaydiumProvider.examplePool])
      (RaydiumProvider.mkOpportunity RaydiumProvider.examplePool)
      (List.mem_singleton.mpr rfl)⟩

namespace PoolMonitorJob

theorem lookupScore_self (scores : List (String × ℚ))
    (hnd : (scores.map Prod.fst).Nodup) (k : String) (v : ℚ)
    (hm : (k, v) ∈ scores) : lookupScore scores k = some v := by
  induction scores with
  | nil => cases hm
  | cons b bs ih =>
    rw [List.map_cons, List.nodup_cons] at hnd
    by_cases hb : b.1 = k
    · have hfind : List.find? (fun binding => binding.1 == k) (b :: bs) =
          some b :=
        List.find?_cons_of_pos _ (by simp [hb])
      rcases List.mem_cons.mp hm with hbv | hbs
      · rw [lookupScore, hfind, ← hbv]
        rfl
      · exfalso
        apply hnd.1
        rw [hb]
        exact List.mem_map.mpr ⟨(k, v), hbs, rfl⟩
    · have hfind : List.find? (fun binding => binding.1 == k) (b :: bs) =
          List.find? (fun binding => binding.1 == k) bs :=
        List.find?_cons_of_neg _ (by simp [hb])
      rcases List.mem_cons.mp hm with hbv | hbs
      · exact absurd (congrArg Prod.fst hbv.symm) hb
      · rw [lookupScore, hfind]
        exact ih hnd.2 hbs

/-- Helper shared by the C8 and C9 theorems: comparing an analysis with
itself never crosses any adjustment threshold (the key-distinctness
hypothesis reflects that a JavaScript object cannot repeat a key). -/
theorem shouldAdjustPosition_self (a : PairAnalysis)
    (hnd : (a.recommendation.ammScores.map Prod.fst).Nodup) :
    shouldAdjustPosition a a = false := by
  simp only [shouldAdjustPosition, sub_self, abs_zero]
  have h20 : ¬ ((0 : ℚ) > 20) := by norm_num
  have h30 : ¬ ((0 : ℚ) > 30) := by norm_num
  simp only [decide_eq_false h20, decide_eq_false h30, Bool.false_or]
  rw [List.any_eq_false]
  intro binding hb
  have hmem : (binding.1, binding.2) ∈ a.recommendation.ammScores := by
    simpa using hb
  rw [lookupScore_self _ hnd binding.1 binding.2 hmem]
  show ¬ (decide (|binding.2 - binding.2| / binding.2 > 0.2) = true)
  rw [decide_eq_true_iff]
  simp only [sub_self, abs_zero, zero_div]
  norm_num

end PoolMonitorJob

/-- Claim C8: re-checking a monitored pool whose fresh analysis is
identical to the stored one (in particular the preferred AMM equals the
current AMM) makes `checkPool` emit no action-layer call at all. -/
theorem checkPool_unchanged_no_actions
    (pool : MonitoredPool) (now : ℤ) (analysis : PairAnalysis)
    (_hsame : analysis = pool.lastAnalysis)
    (hamm : pool.currentAmm = analysis.recommendation.preferredAmm)
    (hnd : (analysis.recommendation.ammScores.map Prod.fst).Nodup) :
    (PoolMonitorJob.checkPool pool now analysis).2 = [] := by
  by_cases htime : now - pool.lastCheck < PoolMonitorJob.checkInterval
  · simp [PoolMonitorJob.checkPool, htime]
  · simp [PoolMonitorJob.checkPool, htime, hamm,
      PoolMonitorJob.shouldAdjustPosition_self analysis hnd]

/-- Claim C8 witness: a steady pool re-checked after the interval with
its own stored analysis produces no action. -/
theorem checkPool_unchanged_no_actions_witness :
    (PoolMonitorJob.checkPool PoolMonitorJob.steadyPool 600000
      PoolMonitorJob.monitorNewAnalysis).2 = [] :=
  checkPool_unchanged_no_actions PoolMonitorJob.steadyPool 600000
    PoolMonitorJob.monitorNewAnalysis rfl rfl
    (by simp [PoolMonitorJob.monitorNewAnalysis])

/-- Claim C9: `checkPool` overwrites `pool.lastAnalysis` with the fresh
analysis before calling `shouldAdjustPosition(pool.lastAnalysis,
analysis)`, so the comparison always receives the same analysis twice;
all deltas are zero, `shouldAdjustPosition` returns false on the
diagonal, and consequently the only action `checkPool` can ever emit is
the AMM-switch `removeLiquidity` — `adjustPosition` is never called, no
matter how much the metrics changed. -/
theorem checkPool_never_adjusts :
    (∀ a : PairAnalysis, (a.recommendation.ammScores.map Prod.fst).Nodup →
      PoolMonitorJob.shouldAdjustPosition a a = false) ∧
    (∀ (pool : MonitoredPool) (now : ℤ) (analysis : PairAnalysis),
      (analysis.recommendation.ammScores.map Prod.fst).Nodup →
      (PoolMonitorJob.checkPool pool now analysis).2.all
        PoolMonitorJob.isRemoveLiquidityCall = true) := by
  constructor
  · exact fun a hnd => PoolMonitorJob.shouldAdjustPosition_self a hnd
  · intro pool now analysis hnd
    by_cases htime : now - pool.lastCheck < PoolMonitorJob.checkInterval
    · simp [PoolMonitorJob.checkPool, htime]
    · by_cases hswitch : analysis.recommendation.preferredAmm ≠
          pool.currentAmm ∧ pool.currentAmm = "raydium"
      · simp [PoolMonitorJob.checkPool, htime, hswitch,
          PoolMonitorJob.shouldAdjustPosition_self analysis hnd,
          PoolMonitorJob.isRemoveLiquidityCall]
      · simp [PoolMonitorJob.checkPool, htime, hswitch,
          PoolMonitorJob.shouldAdjustPosition_self analysis hnd,
          PoolMonitorJob.isRemoveLiquidityCall]

/-- Claim C9 witness: even for a pool whose stored metrics differ wildly
from the fresh analysis, every emitted action is a `removeLiquidity`. -/
theorem checkPool_never_adjusts_witness :
    PoolMonitorJob.shouldAdjustPosition PoolMonitorJob.monitorNewAnalysis
      PoolMonitorJob.monitorNewAnalysis = false ∧
    (PoolMonitorJob.checkPool PoolMonitorJob.driftedPool 600000
      PoolMonitorJob.monitorNewAnalysis).2.all
      PoolMonitorJob.isRemoveLiquidityCall = true :=
  ⟨checkPool_never_adjusts.1 PoolMonitorJob.monitorNewAnalysis
     (by simp [PoolMonitorJob.monitorNewAnalysis]),
   checkPool_never_adjusts.2 PoolMonitorJob.driftedPool 600000
     PoolMonitorJob.monitorNewAnalysis
     (by simp [PoolMonitorJob.monitorNewAnalysis])⟩

/-- Claim C10: `RaydiumClmActions.adjustPosition` returns the fixed
success envelope for every input, because `removeLiquidity` and
`addLiquidity` catch their own exceptions and return `{success: false}`
envelopes that `adjustPosition` never inspects — shown concretely on an
environment where both steps fail. -/
theorem adjustPosition_always_succeeds :
    (∀ removeEnv addEnv : ClmCallEnv,
      RaydiumClmActions.adjustPosition removeEnv addEnv =
        { success := true, message := "Position adjusted successfully" }) ∧
    RaydiumClmActions.removeLiquidity failedClmEnv =
      { success := false, message := "Pool not found" } ∧
    RaydiumClmActions.addLiquidity failedClmEnv =
      { success := false, message := "Pool not found" } ∧
    RaydiumClmActions.adjustPosition failedClmEnv failedClmEnv =
      { success := true, message := "Position adjusted successfully" } :=
  ⟨fun _ _ => rfl, rfl, rfl, rfl⟩

end YieldsFun
